import Mathlib

/-!
Verification of the `goblin` test-server fixture (`src/test-servers/simple_mcp_server.py`).

The source file defines two pure tool functions, `echo` and `add`, and registers
them with an MCP framework that owns argument validation and dispatch.  The two
tool functions are embedded directly from the source; the registry, validation
and dispatch layer (which lives in the framework, not in this repository's
sources) is modelled from the specification's contract (spec sections 3, 6, 7).
-/

namespace Goblin

/-- Embeds `echo` (source lines 10-13): `return f"Echo: {message}"`. -/
def echo (message : String) : String :=
  "Echo: " ++ message

/-- Embeds `add` (source lines 16-19): `return a + b` on Python's
unbounded integers. -/
def add (a b : Int) : Int :=
  a + b

/-- Modelled from the spec: an argument value in an invocation is either a
string or an integer (spec section 3: the two operations take string and
integer inputs; section 7 distinguishes wrong argument types). -/
inductive Value where
  | str : String → Value
  | int : Int → Value
deriving DecidableEq

/-- Whether a value is an integer payload. -/
def Value.isInt : Value → Bool
  | .int _ => true
  | _ => false

/-- Modelled from the spec: "each operation is invoked by name with a mapping
of named arguments" (spec section 6). -/
def Args : Type := List (String × Value)

/-- Look up a named argument in the argument mapping. -/
def Args.find : Args → String → Option Value
  | [], _ => none
  | (k, v) :: rest, key => if k = key then some v else Args.find rest key

/-- Modelled from the spec: a request "returns either a success payload (the
function's return value) or an error payload (reason string) on invalid
input" (spec section 6). -/
inductive Response where
  | success : Value → Response
  | clientError : String → Response
deriving DecidableEq

/-- Whether a response is a client-error payload. -/
def Response.isClientError : Response → Bool
  | .clientError _ => true
  | _ => false

/-- A registered tool: a function from the argument mapping to a response. -/
def ToolFn : Type := Args → Response

/-- Modelled from the spec: the framework wrapper around `echo`; it requires
`message` to be present and of string type, otherwise the request is rejected
with a client error (spec sections 4.1 and 7). -/
def callEcho : ToolFn := fun args =>
  match args.find "message" with
  | some (.str m) => .success (.str (echo m))
  | some (.int _) => .clientError "wrong argument type for message"
  | none => .clientError "missing required argument message"

/-- Modelled from the spec: the framework wrapper around `add`; it requires
`a` and `b` to be present integers, otherwise the request is rejected with a
client error (spec sections 4.1 and 7). -/
def callAdd : ToolFn := fun args =>
  match args.find "a", args.find "b" with
  | some (.int a), some (.int b) => .success (.int (add a b))
  | _, _ => .clientError "arguments a and b must be integers"

/-- Modelled from the spec: the operation registry, a "name → callable
mapping, created once at process start" (spec section 3), holding exactly the
two tools registered by the `@mcp.tool()` decorators in the source. -/
def initRegistry : List (String × ToolFn) :=
  [("echo", callEcho), ("add", callAdd)]

/-- The state of the tool host: its operation registry. -/
structure HostState where
  registry : List (String × ToolFn)

/-- The host state at process start. -/
def initState : HostState :=
  ⟨initRegistry⟩

/-- Look up a tool by operation name in a registry. -/
def lookupTool : List (String × ToolFn) → String → Option ToolFn
  | [], _ => none
  | (k, f) :: rest, key => if k = key then some f else lookupTool rest key

/-- Modelled from the spec: dispatch an invocation by operation name; an
"unknown operation name" is rejected "with a descriptive error" (spec
section 7). -/
def dispatch (s : HostState) (op : String) (args : Args) : Response :=
  match lookupTool s.registry op with
  | some f => f args
  | none => .clientError ("unknown operation " ++ op)

/-- A request: an operation name together with its argument mapping. -/
def Request : Type := String × Args

/-- Modelled from the spec: handling one request produces a response and the
next host state; "request handling is stateless and side-effect-free"
(spec section 5), so the registry is passed through unchanged. -/
def handleRequest (s : HostState) (req : Request) : HostState × Response :=
  (s, dispatch s req.1 req.2)

/-- Run a sequence of requests from a host state, keeping the final state. -/
def runRequests (s : HostState) (reqs : List Request) : HostState :=
  reqs.foldl (fun st req => (handleRequest st req).1) s

theorem runRequests_eq (s : HostState) (reqs : List Request) :
    runRequests s reqs = s := by
  induction reqs with
  | nil => rfl
  | cons r rest ih => exact ih

end Goblin

namespace Goblin

/-- C1: for every string `m`, `echo` with `message=m` returns exactly
`"Echo: " ++ m`; in particular `echo "hello" = "Echo: hello"`. -/
theorem echo_returns_tagged_message :
    (∀ m : String, echo m = "Echo: " ++ m) ∧ echo "hello" = "Echo: hello" :=
  ⟨fun _ => rfl, rfl⟩

/-- C2: for all integers `a`, `b`, `add` returns exactly `a + b`; in
particular `add 2 3 = 5` and `add (-1) 1 = 0`. -/
theorem add_returns_sum :
    (∀ a b : Int, add a b = a + b) ∧ add 2 3 = 5 ∧ add (-1) 1 = 0 :=
  ⟨fun _ _ => rfl, rfl, by decide⟩

/-- C3: dispatching an operation name outside the registry (neither `echo`
nor `add`) yields a client-error response, leaves the host state unchanged,
and a subsequent valid `echo` call still succeeds. -/
theorem unknown_op_client_error (s : HostState) (op : String) (args : Args)
    (hreg : s.registry = initRegistry) (h1 : op ≠ "echo") (h2 : op ≠ "add") :
    (handleRequest s (op, args)).2.isClientError = true ∧
    (handleRequest s (op, args)).1 = s ∧
    ∀ m : String,
      (handleRequest (handleRequest s (op, args)).1
        ("echo", [("message", Value.str m)])).2 =
        .success (.str ("Echo: " ++ m)) := by
  refine ⟨?_, rfl, ?_⟩
  · simp [handleRequest, dispatch, hreg, lookupTool, initRegistry,
      Ne.symm h1, Ne.symm h2, Response.isClientError]
  · intro m
    simp [handleRequest, dispatch, hreg, lookupTool, initRegistry, callEcho,
      Args.find, echo]

/-- Witness for C3 at the concrete unknown operation `multiply`. -/
theorem unknown_op_client_error_witness :
    (handleRequest initState ("multiply", [])).2.isClientError = true ∧
    (handleRequest (handleRequest initState ("multiply", [])).1
      ("echo", [("message", Value.str "hello")])).2 =
      .success (.str ("Echo: " ++ "hello")) := by
  have h := unknown_op_client_error initState "multiply" [] rfl
    (by decide) (by decide)
  exact ⟨h.1, h.2.2 "hello"⟩

/-- C4: an `add` invocation in which `a` or `b` is not bound to an integer
yields a client-error payload with a reason string, never a success payload,
and the host state is unchanged. -/
theorem add_non_integer_client_error (s : HostState) (args : Args)
    (hreg : s.registry = initRegistry)
    (h : (∀ n : Int, args.find "a" ≠ some (.int n)) ∨
         (∀ n : Int, args.find "b" ≠ some (.int n))) :
    (∃ msg : String, (handleRequest s ("add", args)).2 = .clientError msg) ∧
    (∀ v : Value, (handleRequest s ("add", args)).2 ≠ .success v) ∧
    (handleRequest s ("add", args)).1 = s := by
  have hdisp : (handleRequest s ("add", args)).2 = callAdd args := by
    simp [handleRequest, dispatch, hreg, lookupTool, initRegistry]
  have herr : callAdd args = .clientError "arguments a and b must be integers" := by
    unfold callAdd
    split
    · rename_i a b ha hb
      rcases h with h | h
      · exact absurd ha (h a)
      · exact absurd hb (h b)
    · rfl
  refine ⟨⟨_, by rw [hdisp, herr]⟩, ?_, rfl⟩
  intro v hv
  rw [hdisp, herr] at hv
  exact Response.noConfusion hv

/-- Witness for C4: calling `add` with a string bound to `a`. -/
theorem add_non_integer_client_error_witness :
    (∃ msg : String,
      (handleRequest initState
        ("add", [("a", Value.str "x"), ("b", Value.int 3)])).2 =
        .clientError msg) ∧
    (handleRequest initState
      ("add", [("a", Value.str "x"), ("b", Value.int 3)])).1 = initState := by
  have h := add_non_integer_client_error initState
    [("a", Value.str "x"), ("b", Value.int 3)] rfl
    (Or.inl (fun n hn => by simp [Args.find] at hn))
  exact ⟨h.1, h.2.2⟩

/-- C5: an `echo` invocation whose argument mapping lacks the key `message`
yields a client error, and any invocation binding `message` to a string
succeeds: presence of a string `message` is the only validation. -/
theorem echo_requires_message (args : Args) :
    (args.find "message" = none → (callEcho args).isClientError = true) ∧
    (∀ m : String, args.find "message" = some (.str m) →
      callEcho args = .success (.str (echo m))) := by
  constructor
  · intro h
    simp [callEcho, h, Response.isClientError]
  · intro m h
    simp [callEcho, h]

/-- Witness for C5: `echo` with an empty argument mapping errors, and with
`message="hi"` succeeds. -/
theorem echo_requires_message_witness :
    (callEcho []).isClientError = true ∧
    callEcho [("message", Value.str "hi")] = .success (.str (echo "hi")) :=
  ⟨(echo_requires_message []).1 rfl,
   (echo_requires_message [("message", Value.str "hi")]).2 "hi" rfl⟩

/-- C6: the operation registry holds exactly the entries `echo` and `add`
(bound to their tool functions), and after handling any sequence of requests
from the initial state the registry equals its initial value. -/
theorem registry_immutable :
    initRegistry.map Prod.fst = ["echo", "add"] ∧
    lookupTool initRegistry "echo" = some callEcho ∧
    lookupTool initRegistry "add" = some callAdd ∧
    ∀ reqs : List Request,
      (runRequests initState reqs).registry = initState.registry :=
  ⟨rfl, rfl, rfl, fun reqs => by rw [runRequests_eq]⟩

/-- C7: request handling is deterministic and stateless: a request issued
after any sequence of other requests yields the same response as the same
request issued after any other sequence. -/
theorem handling_deterministic (reqsA reqsB : List Request) (req : Request) :
    (handleRequest (runRequests initState reqsA) req).2 =
    (handleRequest (runRequests initState reqsB) req).2 := by
  rw [runRequests_eq, runRequests_eq]

/-- Dropping the first six characters of a string (the length of the tag
"Echo: "). -/
def dropTag (s : String) : String :=
  ⟨s.data.drop 6⟩

/-- C8: dropping the first 6 characters of `echo`'s output recovers the
input (a left inverse), hence `echo` is injective. -/
theorem echo_lossless :
    (∀ m : String, dropTag (echo m) = m) ∧ Function.Injective echo := by
  have h : ∀ m : String, dropTag (echo m) = m := by
    intro m
    cases m with
    | mk data => rfl
  exact ⟨h, Function.LeftInverse.injective h⟩

/-- C9: `add` is commutative and has 0 as a right identity. -/
theorem add_comm_zero_identity :
    (∀ a b : Int, add a b = add b a) ∧ (∀ a : Int, add a 0 = a) :=
  ⟨fun a b => Int.add_comm a b, fun a => Int.add_zero a⟩

/-- C10: `add` is exact over unbounded integers: the result is the
mathematical sum, and for every word width `w` the sum of `2 ^ w` with
itself exceeds `2 ^ w`, so no width bounds the results. -/
theorem add_exact_unbounded :
    (∀ a b : Int, add a b = a + b) ∧
    (∀ w : Nat, (2 : Int) ^ w < add (2 ^ w) (2 ^ w)) := by
  refine ⟨fun a b => rfl, fun w => ?_⟩
  show (2 : Int) ^ w < 2 ^ w + 2 ^ w
  have hpos : (0 : Int) < 2 ^ w := pow_pos (by norm_num) w
  linarith

end Goblin
